import Mathlib

set_option maxRecDepth 40000

/-!
Verification development for the AI_Layer2 voice-conversation orchestrator.

We shallowly embed the code that the specification talks about:

* `src/src/orchestrator/service.py` — the per-service circuit-breaker state
  (`circuit_breakers`), the resilient client `safe_post`, and the
  request/response pipeline `orchestrate_interaction` (chat and voice modes);
* `src/src/orchestrator/voice_ws.py` — the per-connection WebSocket handler:
  VAD-driven utterance segmentation, barge-in, the inline STT → LLM2 → TTS
  pipeline, and session history updates;
* `src/src/speech/vad.py` — `StreamingVAD.is_speech` (length check, then the
  webrtcvad classification, which we abstract as an oracle on well-formed
  frames);
* `src/ai_service.py` — `AIService.manage_conversation_history` /
  `add_to_history`.

Conventions: timestamps are `Nat` (the code uses `time.time()` floats; only
order and the `+30` cooldown matter).  Network interactions are embedded as
lists of `Attempt` outcomes supplied by the environment; a call consumes
outcomes from the front of its list, so "number of network attempts made"
is visible as the unconsumed suffix.  Byte strings are `List Nat`.
-/

namespace AILayer2

/-! ### Circuit breaker and resilient client (`service.py`, lines 36–132) -/

/-- One entry of the module-level `circuit_breakers` dict:
`{"failures": 0, "open_until": 0}`.  `openUntil = 0` is the initial
"no open window" value. -/
structure BreakerState where
  failures : Nat
  openUntil : Nat
deriving Repr, DecidableEq

/-- Outcome of one network attempt as seen by `safe_post`: either an HTTP
response with a status code and (decoded) payload, or a transport
exception. -/
inductive Attempt (α : Type) where
  | resp (status : Nat) (payload : α)
  | exn
deriving Repr, DecidableEq

/-- `Attempt.ok?` is the `resp.status_code == 200` test of `safe_post`
(line 105): `some payload` exactly when the attempt is a 200 response. -/
def Attempt.ok? : Attempt α → Option α
  | .resp 200 p => some p
  | _ => none

/-- Result of a `safe_post` call: a 200 response (`success`), the
circuit-open short-circuit dummy (status 503, line 96), or the fallback
dummy after the retry loop (status 500, lines 126–132). -/
inductive CallResult (α : Type) where
  | success (payload : α)
  | circuitOpen
  | fallback
deriving Repr, DecidableEq

/-- Whether the response status code is 200 — `circuitOpen` is a 503 dummy
and `fallback` a 500 dummy, so only `success` passes the callers'
`status_code != 200` checks. -/
def CallResult.isOk : CallResult α → Bool
  | .success _ => true
  | _ => false

/-- The `for attempt in range(retries)` loop of `safe_post`
(lines 100–123): a 200 response resets `failures` to 0 and returns; a
non-200 response or exception increments `failures`, and once `failures`
reaches 3 the loop sets `open_until = now + 30` and `break`s out to the
fallback.  The list of attempts plays the role of the remaining retry
budget; the unconsumed suffix is returned. -/
def attemptLoop (now : Nat) : BreakerState → List (Attempt α) →
    BreakerState × CallResult α × List (Attempt α)
  | b, [] => (b, .fallback, [])
  | b, a :: rest =>
    match a.ok? with
    | some p => ({ b with failures := 0 }, .success p, rest)
    | none =>
      let b' : BreakerState := { b with failures := b.failures + 1 }
      if 3 ≤ b'.failures then
        ({ b' with openUntil := now + 30 }, .fallback, rest)
      else
        attemptLoop now b' rest

/-- `safe_post` (lines 87–132) for a recognized service name: if
`open_until > now` the call is short-circuited (line 94) without touching
the attempt list, otherwise the retry loop runs. -/
def safePost (b : BreakerState) (now : Nat) (attempts : List (Attempt α)) :
    BreakerState × CallResult α × List (Attempt α) :=
  if now < b.openUntil then (b, .circuitOpen, attempts)
  else attemptLoop now b attempts

/-! ### Request/response orchestrator (`service.py`, `orchestrate_interaction`,
lines 134–239) -/

/-- The `rules` map returned by LLM1 and the `character_details` map, as
string-to-string association lists. -/
abbrev Rules := List (String × String)

/-- Fallback context string of the LLM1 stage: the caller treats a context
equal to this literal as a stage failure (lines 159, 205). -/
def FALLBACK_CONTEXT : String := "fallback-context"

/-- Fallback response string of the LLM2 stage (lines 173, 212): the caller
treats a response equal to this literal as a stage failure. -/
def LLM2_FALLBACK : String := "Sorry, something went wrong."

/-- `context, rules` extraction (lines 156–157 / 202–203): on a non-200
result the fallback json `{"context": "fallback-context", "rules": {}}` is
read. -/
def contextOf : CallResult (String × Rules) → String × Rules
  | .success p => p
  | _ => (FALLBACK_CONTEXT, [])

/-- `response` extraction (lines 176 / 215): on a non-200 result the
fallback json `{"response": "Sorry, something went wrong."}` is read. -/
def responseOf : CallResult String → String
  | .success r => r
  | _ => LLM2_FALLBACK

/-- Python's `str.strip()`: drop whitespace from both ends (restricted to
ASCII whitespace, which is all that matters here). -/
def strip (s : String) : String :=
  String.mk
    (((s.data.dropWhile Char.isWhitespace).reverse.dropWhile
      Char.isWhitespace).reverse)

/-- The LLM2 failure test (lines 178 / 217):
`status != 200 or not response or not response.strip() or
response == "Sorry, something went wrong."`. -/
def llm2Failed (r : CallResult String) (resp : String) : Bool :=
  !r.isOk || resp == "" || strip resp == "" || resp == LLM2_FALLBACK

/-- The LLM1 failure test (lines 159 / 205):
`status != 200 or context == "fallback-context"`. -/
def llm1Failed (r : CallResult (String × Rules)) (ctx : String) : Bool :=
  !r.isOk || ctx == FALLBACK_CONTEXT

/-- Orchestrator turn result: the `{"response": ..., "audio_data": ...,
"error": ...}` dict, with the error reduced to the name of the failing
stage (`"orchestrator"`, `"llm1"`, `"llm2"`, `"stt"`, `"tts"`). -/
structure OrchResult where
  response : String
  audioData : Option String
  error : Option String
deriving Repr, DecidableEq

/-- Output of one chat-mode `orchestrate_interaction` call: the result,
the updated `llm1_context_cache`, the updated breaker entries for llm1 and
llm2, and the unconsumed attempt budget of each stage. -/
structure ChatOut where
  result : OrchResult
  cache : List (String × (String × Rules))
  b1 : BreakerState
  b2 : BreakerState
  llm1Left : List (Attempt (String × Rules))
  llm2Left : List (Attempt String)

/-- The LLM2 half of the chat branch (lines 165–185), shared by the
cache-hit and cache-miss paths. -/
def chatRespond (cache : List (String × (String × Rules)))
    (_ctx : String) (b1 b2 : BreakerState) (now : Nat)
    (llm1Left : List (Attempt (String × Rules)))
    (llm2A : List (Attempt String)) : ChatOut :=
  let s2 := safePost b2 now llm2A
  let resp := responseOf s2.2.1
  if llm2Failed s2.2.1 resp then
    ⟨⟨"Sorry, the character could not respond. Please try again later.",
      none, some "llm2"⟩, cache, b1, s2.1, llm1Left, s2.2.2⟩
  else
    ⟨⟨resp, none, none⟩, cache, b1, s2.1, llm1Left, s2.2.2⟩

/-- Chat mode of `orchestrate_interaction` (lines 137–185): guard on
missing fields, `llm1_context_cache` lookup keyed by the session
(lines 141–144), LLM1 call plus cache fill on success (lines 146–164),
then LLM2.  The `ctx` string is threaded to `chatRespond` only to keep the
signature small; the code passes both `context` and `rules` to LLM2's
payload, which the embedding does not inspect. -/
def orchestrateChat (userInput : String) (characterDetails : Rules)
    (cacheKey : String) (cache : List (String × (String × Rules)))
    (b1 b2 : BreakerState) (now : Nat)
    (llm1A : List (Attempt (String × Rules)))
    (llm2A : List (Attempt String)) : ChatOut :=
  if userInput = "" ∨ characterDetails = [] then
    ⟨⟨"Missing user input or character details.", none, some "orchestrator"⟩,
      cache, b1, b2, llm1A, llm2A⟩
  else
    match List.lookup cacheKey cache with
    | some (ctx, _rules) =>
      chatRespond cache ctx b1 b2 now llm1A llm2A
    | none =>
      let s1 := safePost b1 now llm1A
      let cr := contextOf s1.2.1
      if llm1Failed s1.2.1 cr.1 then
        ⟨⟨"Sorry, the character could not generate context. Please try again later.",
          none, some "llm1"⟩, cache, s1.1, b2, s1.2.2, llm2A⟩
      else
        chatRespond ((cacheKey, cr) :: cache) cr.1 s1.1 b2 now s1.2.2 llm2A

/-- Output of one voice-mode `orchestrate_interaction` call: the result,
updated breaker entries, unconsumed attempt budgets, and the list of texts
handed to the TTS stage (the `{"text": response, ...}` payloads of
line 224) — at most one per turn. -/
structure VoiceOut where
  result : OrchResult
  bStt : BreakerState
  b1 : BreakerState
  b2 : BreakerState
  bTts : BreakerState
  sttLeft : List (Attempt String)
  llm1Left : List (Attempt (String × Rules))
  llm2Left : List (Attempt String)
  ttsLeft : List (Attempt (Option String))
  ttsCalls : List String

/-- Voice mode of `orchestrate_interaction` (lines 186–236):
STT → LLM1 → LLM2 → TTS, each through `safePost`, aborting at the first
failing stage.  Note there is no cache lookup: LLM1 runs on every voice
turn (line 199). -/
def orchestrateVoice (_audioData : Option String)
    (bStt b1 b2 bTts : BreakerState) (now : Nat)
    (sttA : List (Attempt String))
    (llm1A : List (Attempt (String × Rules)))
    (llm2A : List (Attempt String))
    (ttsA : List (Attempt (Option String))) : VoiceOut :=
  let ss := safePost bStt now sttA
  let transcript := match ss.2.1 with | .success t => t | _ => ""
  if !ss.2.1.isOk || transcript == "" then
    ⟨⟨"Sorry, we could not transcribe your audio. Please try again.",
      none, some "stt"⟩, ss.1, b1, b2, bTts, ss.2.2, llm1A, llm2A, ttsA, []⟩
  else
    let s1 := safePost b1 now llm1A
    let cr := contextOf s1.2.1
    if llm1Failed s1.2.1 cr.1 then
      ⟨⟨"Sorry, the character could not generate context. Please try again later.",
        none, some "llm1"⟩, ss.1, s1.1, b2, bTts, ss.2.2, s1.2.2, llm2A, ttsA, []⟩
    else
      let s2 := safePost b2 now llm2A
      let resp := responseOf s2.2.1
      if llm2Failed s2.2.1 resp then
        ⟨⟨"Sorry, the character could not respond. Please try again later.",
          none, some "llm2"⟩, ss.1, s1.1, s2.1, bTts, ss.2.2, s1.2.2, s2.2.2, ttsA, []⟩
      else
        let st := safePost bTts now ttsA
        let audioOut := match st.2.1 with | .success a => a | _ => none
        if !st.2.1.isOk || audioOut == none then
          ⟨⟨resp, none, some "tts"⟩,
            ss.1, s1.1, s2.1, st.1, ss.2.2, s1.2.2, s2.2.2, st.2.2, [resp]⟩
        else
          ⟨⟨resp, audioOut, none⟩,
            ss.1, s1.1, s2.1, st.1, ss.2.2, s1.2.2, s2.2.2, st.2.2, [resp]⟩

/-! ### WebSocket voice session (`voice_ws.py`, `voice_session_ws`) and the
VAD classifier (`speech/vad.py`) -/

/-- `StreamingVAD.frame_bytes` with the default constructor arguments used
by the module-level `vad_instance`: `int(16000 * 30 / 1000) * 2 = 960`. -/
def frame_bytes : Nat := 16000 * 30 / 1000 * 2

/-- `max_silence_chunks` of the session loop (line 114). -/
def MAX_SILENCE_CHUNKS : Nat := 10

/-- `StreamingVAD.is_speech` (vad.py lines 11–15): a frame whose length is
not `frame_bytes` raises `ValueError` (`.error`); otherwise the webrtcvad
classification runs, which we abstract as the `oracle` on well-formed
frames. -/
def is_speech (oracle : List Nat → Bool) (frame : List Nat) :
    Except Unit Bool :=
  if frame.length = frame_bytes then .ok (oracle frame) else .error ()

/-- One entry of the WebSocket session `history` list:
`{"sender": ..., "content": ...}` (lines 184, 212). -/
structure WsTurn where
  sender : String
  content : String
deriving Repr, DecidableEq

/-- Per-connection mutable state of `voice_session_ws`: the segmenter flags
`speaking` / `silence_counter`, the session `buffer`, the barge-in flags
`tts_playing` / `tts_cancel_event` (`none` when the event variable is
`None`, `some b` when an event exists with set-flag `b`), and the session
`history`. -/
structure WSState where
  speaking : Bool
  silenceCounter : Nat
  buffer : List Nat
  ttsPlaying : Bool
  ttsCancel : Option Bool
  history : List WsTurn
deriving Repr, DecidableEq

/-- Server→client messages sent during the main loop. -/
inductive WSEvent where
  | vadState (speaking : Bool)
  | bargeIn
  | errorEvt
  | transcriptFinal (text : String)
  | llm2Final (text : String)
  | ttsChunk (audio : String)
  | ttsEnd
deriving Repr, DecidableEq

/-- Network environment for one inline STT → LLM2 → TTS pipeline run:
one outcome list per downstream call, the chunk list of a successful TTS
stream, and `ttsCancelAt i` — whether `tts_cancel_event.is_set()` holds
when chunk `i` is about to be sent (the event is set concurrently by
barge-in). -/
structure PipelineNet where
  stt : List (Attempt String)
  llm2 : List (Attempt String)
  tts : List (Attempt (List String))
  ttsCancelAt : Nat → Bool

/-- Head/tail of an attempt list; an exhausted environment behaves as a
transport exception. -/
def takeAttempt : List (Attempt α) → Attempt α × List (Attempt α)
  | [] => (.exn, [])
  | a :: rest => (a, rest)

/-- The TTS chunk relay loop (lines 225–229): before sending chunk `i` the
cancel event is polled; if set, the loop `break`s and no further chunk is
sent. -/
def ttsEmitAux (cancelled : Nat → Bool) (i : Nat) :
    List String → List WSEvent
  | [] => []
  | c :: rest =>
    if cancelled i then [] else .ttsChunk c :: ttsEmitAux cancelled (i + 1) rest

/-- Output of one inline pipeline run (`voice_ws.py` lines 165–255). -/
structure PipeOut where
  events : List WSEvent
  history : List WsTurn
  ttsPlaying : Bool
  ttsCancel : Option Bool
  ttsCalls : List String
  sttLeft : List (Attempt String)
  llm2Left : List (Attempt String)
  ttsLeft : List (Attempt (List String))

/-- The inline utterance pipeline of the session loop (lines 165–255):
one STT POST; on a 200, `transcript_final` is sent and the user turn is
appended to `history` (even when the transcript is empty); one LLM2 POST;
on a 200, `llm2_final` is sent, the assistant turn appended, and one TTS
stream request made with `{"text": llm2_text, ...}` — `ttsCalls` records
that text.  On the TTS paths the loop ends with `tts_playing = False` and
`tts_cancel_event = None` (lines 237–243); all failure paths send one
`error` message and `continue`. -/
def wsPipeline (net : PipelineNet) (tp0 : Bool) (tc0 : Option Bool)
    (h0 : List WsTurn) (_audio : List Nat) : PipeOut :=
  let s := takeAttempt net.stt
  match s.1 with
  | .exn => ⟨[.errorEvt], h0, tp0, tc0, [], s.2, net.llm2, net.tts⟩
  | .resp st tr =>
    if st = 200 then
      let h1 := h0 ++ [⟨"user", tr⟩]
      let l := takeAttempt net.llm2
      match l.1 with
      | .exn =>
        ⟨[.transcriptFinal tr, .errorEvt], h1, tp0, tc0, [], s.2, l.2, net.tts⟩
      | .resp st2 text =>
        if st2 = 200 then
          let h2 := h1 ++ [⟨"character", text⟩]
          let t := takeAttempt net.tts
          match t.1 with
          | .exn =>
            ⟨[.transcriptFinal tr, .llm2Final text, .errorEvt], h2,
              false, none, [text], s.2, l.2, t.2⟩
          | .resp st3 chunks =>
            if st3 = 200 then
              ⟨[.transcriptFinal tr, .llm2Final text] ++
                  ttsEmitAux net.ttsCancelAt 0 chunks ++ [.ttsEnd], h2,
                false, none, [text], s.2, l.2, t.2⟩
            else
              ⟨[.transcriptFinal tr, .llm2Final text, .errorEvt], h2,
                false, none, [text], s.2, l.2, t.2⟩
        else
          ⟨[.transcriptFinal tr, .errorEvt], h1, tp0, tc0, [], s.2, l.2, net.tts⟩
    else
      ⟨[.errorEvt], h0, tp0, tc0, [], s.2, net.llm2, net.tts⟩

/-- Head/tail of the per-flush network environments; an exhausted
environment yields empty attempt lists (all stages behave as transport
exceptions). -/
def takeNet : List PipelineNet → PipelineNet × List PipelineNet
  | [] => (⟨[], [], [], fun _ => false⟩, [])
  | n :: rest => (n, rest)

/-- Barge-in state update (lines 136–143): while `tts_playing`, a
speech-classified frame clears `tts_playing` and sets the cancel event if
one exists. -/
def bargeState (s : WSState) (speech : Bool) : WSState :=
  if s.ttsPlaying && speech then
    { s with ttsPlaying := false, ttsCancel := s.ttsCancel.map fun _ => true }
  else s

/-- Barge-in events (line 142): one `barge_in` message on the triggering
frame. -/
def bargeEvents (s : WSState) (speech : Bool) : List WSEvent :=
  if s.ttsPlaying && speech then [.bargeIn] else []

/-- Output of processing one binary frame (and of multi-frame runs):
the new session state, the messages sent, the utterance buffers handed to
STT (`flushes`, the `audio_bytes` of line 161), the texts handed to TTS,
and the unconsumed per-flush network environments. -/
structure RunOut where
  state : WSState
  events : List WSEvent
  flushes : List (List Nat)
  ttsCalls : List String
  netsLeft : List PipelineNet

/-- Processing of one binary frame by the session main loop
(lines 128–256): VAD classification with `try/except` (a `ValueError` is
reported as an `error` message and the frame skipped, lines 130–135);
barge-in check (136–143); speech path appending the frame to the buffer
and resetting the silence counter (144–153); silence path incrementing the
counter and, at `max_silence_chunks`, flushing the buffer into the inline
pipeline (154–255).  Silence frames are never appended to the buffer. -/
def handleFrame (oracle : List Nat → Bool) (nets : List PipelineNet)
    (s : WSState) (frame : List Nat) : RunOut :=
  match is_speech oracle frame with
  | .error _ => ⟨s, [.errorEvt], [], [], nets⟩
  | .ok speech =>
    let s1 := bargeState s speech
    let ev1 := bargeEvents s speech
    if speech then
      let s2 := { s1 with buffer := s1.buffer ++ frame, silenceCounter := 0 }
      if s2.speaking then ⟨s2, ev1, [], [], nets⟩
      else ⟨{ s2 with speaking := true }, ev1 ++ [.vadState true], [], [], nets⟩
    else if s1.speaking then
      let c := s1.silenceCounter + 1
      if MAX_SILENCE_CHUNKS ≤ c then
        let audio := s1.buffer
        let s2 : WSState :=
          { s1 with speaking := false, buffer := [], silenceCounter := 0 }
        if audio.isEmpty then ⟨s2, ev1 ++ [.vadState false], [], [], nets⟩
        else
          let n := takeNet nets
          let p := wsPipeline n.1 s2.ttsPlaying s2.ttsCancel s2.history audio
          let s3 : WSState :=
            { s2 with history := p.history, ttsPlaying := p.ttsPlaying,
                      ttsCancel := p.ttsCancel }
          ⟨s3, ev1 ++ [.vadState false] ++ p.events, [audio], p.ttsCalls, n.2⟩
      else ⟨{ s1 with silenceCounter := c }, ev1, [], [], nets⟩
    else ⟨s1, ev1, [], [], nets⟩

/-- Iterated frame processing: the session loop restricted to binary
frames, threading state and the per-flush network environments. -/
def runFrames (oracle : List Nat → Bool) :
    WSState → List PipelineNet → List (List Nat) → RunOut
  | s, nets, [] => ⟨s, [], [], [], nets⟩
  | s, nets, f :: fs =>
    let o := handleFrame oracle nets s f
    let r := runFrames oracle o.state o.netsLeft fs
    ⟨r.state, o.events ++ r.events, o.flushes ++ r.flushes,
      o.ttsCalls ++ r.ttsCalls, r.netsLeft⟩

/-- The four module-level `circuit_breakers` entries of `service.py`
(line 37). -/
structure Breakers where
  llm1 : BreakerState
  llm2 : BreakerState
  stt : BreakerState
  tts : BreakerState
deriving Repr, DecidableEq

/-- Global process state relevant to a WebSocket frame: the shared
`circuit_breakers` registry of `service.py` together with the session
state.  `voice_session_ws` calls its downstream services with a bare
`httpx` client and never references the registry. -/
structure GlobalState where
  breakers : Breakers
  ws : WSState

/-- One frame of the session loop, lifted to the global state: the
handler only touches its session's state. -/
def handleFrameGlobal (oracle : List Nat → Bool) (nets : List PipelineNet)
    (g : GlobalState) (frame : List Nat) : GlobalState × RunOut :=
  let o := handleFrame oracle nets g.ws frame
  (⟨g.breakers, o.state⟩, o)

/-! ### Conversation history of `AIService` (`ai_service.py`, lines 174–186) -/

/-- One entry of `AIService.conversation_history`. -/
structure AiTurn where
  sender : String
  content : String
  timestamp : Nat
deriving Repr, DecidableEq

/-- `AIService.manage_conversation_history` (lines 174–177): keep the last
10 entries (`self.conversation_history[-10:]`) when the list is longer
than 10. -/
def manage_conversation_history (h : List AiTurn) : List AiTurn :=
  if 10 < h.length then h.drop (h.length - 10) else h

/-- `AIService.add_to_history` (lines 179–186): append the new entry, then
trim. -/
def add_to_history (h : List AiTurn) (message sender : String)
    (now : Nat) : List AiTurn :=
  manage_conversation_history (h ++ [⟨sender, message, now⟩])

/-! ## Helper lemmas -/

/-- On any path of the retry loop that ends in a 200 response, the failure
counter is 0 and `open_until` was never written. -/
theorem attemptLoop_success_state {α : Type} (now : Nat) :
    ∀ (attempts : List (Attempt α)) (b b' : BreakerState) (p : α)
      (left : List (Attempt α)),
      attemptLoop now b attempts = (b', CallResult.success p, left) →
      b'.failures = 0 ∧ b'.openUntil = b.openUntil := by
  intro attempts
  induction attempts with
  | nil =>
    intro b b' p left h
    simp [attemptLoop] at h
  | cons a rest ih =>
    intro b b' p left h
    rw [attemptLoop] at h
    cases hok : a.ok? with
    | some q =>
      rw [hok] at h
      simp only [Prod.mk.injEq] at h
      obtain ⟨hb, _, _⟩ := h
      subst hb
      exact ⟨rfl, rfl⟩
    | none =>
      rw [hok] at h
      by_cases h3 : 3 ≤ b.failures + 1
      · simp only [h3, if_true, Prod.mk.injEq] at h
        obtain ⟨_, hc, _⟩ := h
        exact absurd hc (by simp)
      · simp only [h3, if_false, reduceIte] at h
        exact ih ⟨b.failures + 1, b.openUntil⟩ b' p left h

/-! ## Claim theorems -/

/-- C2 (corrected), counterexample to the claim as stated: with breaker
state `{failures 2, open_until 5}` at time 10, a single 200 response
yields a success, yet `open_until` is still 5 — it is not cleared, so the
breaker is not reset "fully healthy" as the claim demands. -/
theorem success_clears_open_cex :
    (safePost ⟨2, 5⟩ 10 [Attempt.resp 200 ()]).2.1 = CallResult.success () ∧
    ¬ (safePost ⟨2, 5⟩ 10 [Attempt.resp 200 ()]).1.openUntil = 0 := by
  decide

/-- C2 (amended): any successful (status 200) call through `safe_post`
resets that service's `consecutive_failures` to 0 but leaves `open_until`
unchanged; the breaker behaves as closed only because a success can be
observed only when `now ≥ open_until` already holds. -/
theorem success_resets_failures {α : Type} (b b' : BreakerState) (now : Nat)
    (attempts left : List (Attempt α)) (p : α)
    (h : safePost b now attempts = (b', CallResult.success p, left)) :
    b'.failures = 0 ∧ b'.openUntil = b.openUntil := by
  unfold safePost at h
  by_cases ho : now < b.openUntil
  · rw [if_pos ho] at h
    simp only [Prod.mk.injEq] at h
    exact absurd h.2.1 (by simp)
  · rw [if_neg ho] at h
    exact attemptLoop_success_state now attempts b b' p left h

/-- Witness for C2 (amended) at `b = ⟨2, 5⟩`, `now = 10`, one 200
attempt. -/
theorem success_resets_failures_wit :
    safePost ⟨2, 5⟩ 10 [Attempt.resp 200 ()] =
      (⟨0, 5⟩, CallResult.success (), []) ∧
    ((0 : Nat) = 0 ∧ (5 : Nat) = 5) :=
  ⟨by decide,
    success_resets_failures ⟨2, 5⟩ ⟨0, 5⟩ 10 [Attempt.resp 200 ()] [] ()
      (by decide)⟩

/-- C3 (confirmed): while a service's breaker is open (`now < open_until`),
`safe_post` fails immediately with the circuit-open result, consumes no
network attempt, performs no retry, and leaves the breaker state
unchanged. -/
theorem circuit_open_fast_fail {α : Type} (b : BreakerState) (now : Nat)
    (attempts : List (Attempt α)) (h : now < b.openUntil) :
    safePost b now attempts = (b, CallResult.circuitOpen, attempts) := by
  simp [safePost, h]

/-- Witness for C3 at `b = ⟨3, 100⟩`, `now = 5`. -/
theorem circuit_open_fast_fail_wit :
    (5 : Nat) < 100 ∧
    safePost ⟨3, 100⟩ 5 [Attempt.resp 200 ()] =
      (⟨3, 100⟩, CallResult.circuitOpen, [Attempt.resp 200 ()]) :=
  ⟨by decide, circuit_open_fast_fail ⟨3, 100⟩ 5 [Attempt.resp 200 ()] (by decide)⟩

/-- C4 (confirmed): a failed attempt (non-200 response or exception)
increments `consecutive_failures`, leaving `open_until` alone while the
counter is below the threshold 3; when the incremented counter reaches 3,
the loop sets `open_until = now + 30` and stops immediately with the
fallback, leaving the whole remaining retry budget (`rest`)
unconsumed. -/
theorem failure_increments_and_trips {α : Type} (b : BreakerState)
    (now : Nat) (a : Attempt α) (rest : List (Attempt α))
    (hfail : a.ok? = none) :
    (b.failures + 1 < 3 →
      attemptLoop now b (a :: rest) =
        attemptLoop now ⟨b.failures + 1, b.openUntil⟩ rest) ∧
    (3 ≤ b.failures + 1 →
      attemptLoop now b (a :: rest) =
        (⟨b.failures + 1, now + 30⟩, CallResult.fallback, rest)) := by
  constructor
  · intro hlt
    rw [attemptLoop, hfail]
    simp only [Nat.not_le.mpr hlt, if_false, reduceIte]
  · intro hge
    rw [attemptLoop, hfail]
    simp only [hge, if_true, reduceIte]

/-- Witness for C4 at `b = ⟨2, 0⟩`, `now = 7`, two pending exception
attempts: the trip happens on the first, the second stays unconsumed. -/
theorem failure_increments_and_trips_wit :
    Attempt.ok? (Attempt.exn : Attempt Unit) = none ∧
    (3 ≤ 2 + 1 ∧
      attemptLoop 7 ⟨2, 0⟩ [Attempt.exn, Attempt.exn] =
        (⟨2 + 1, 7 + 30⟩, (CallResult.fallback : CallResult Unit),
          [Attempt.exn])) :=
  ⟨rfl, by decide,
    (failure_increments_and_trips ⟨2, 0⟩ 7 Attempt.exn [Attempt.exn] rfl).2
      (by decide)⟩

/-- The LLM2 half of the chat branch keeps the cache and the LLM1 budget it
was given, whichever way the LLM2 check goes. -/
theorem chatRespond_cache (cache : List (String × (String × Rules)))
    (x : String) (b1 b2 : BreakerState) (now : Nat)
    (l1 : List (Attempt (String × Rules))) (l2A : List (Attempt String)) :
    (chatRespond cache x b1 b2 now l1 l2A).cache = cache ∧
    (chatRespond cache x b1 b2 now l1 l2A).llm1Left = l1 := by
  by_cases h : llm2Failed (safePost b2 now l2A).2.1
      (responseOf (safePost b2 now l2A).2.1) = true <;>
    simp [chatRespond, h]

/-- C6 (corrected), counterexample to the claim as stated: in the
WebSocket pipeline an LLM2 200 response whose `response` field is the
empty string is handed to the TTS stage unchanged — the turn is not
aborted and the synthesis stage is invoked with an empty reply text. -/
theorem empty_reply_forwarded_cex :
    (wsPipeline ⟨[Attempt.resp 200 "hi"], [Attempt.resp 200 ""],
        [Attempt.resp 200 ["c1"]], fun _ => false⟩ false none [] [1]).ttsCalls
      = [""] ∧
    strip "" = "" :=
  ⟨rfl, by decide⟩

/-- C6 (amended): in the request/response orchestrator an empty or
all-whitespace LLM2 reply aborts the turn before the TTS stage, so every
text handed to TTS there has non-empty trim; the WebSocket handler,
however, performs no emptiness check and hands any 200 LLM2 reply text to
TTS as-is. -/
theorem empty_reply_never_synthesized
    (ad : Option String) (bStt b1 b2 bTts : BreakerState) (now : Nat)
    (sttA : List (Attempt String)) (llm1A : List (Attempt (String × Rules)))
    (llm2A : List (Attempt String)) (ttsA : List (Attempt (Option String)))
    (t : String)
    (ht : t ∈ (orchestrateVoice ad bStt b1 b2 bTts now sttA llm1A llm2A
      ttsA).ttsCalls)
    (net : PipelineNet) (tp0 : Bool) (tc0 : Option Bool) (h0 : List WsTurn)
    (audio : List Nat) (tr text : String) (rest r2 : List (Attempt String))
    (hstt : net.stt = Attempt.resp 200 tr :: rest)
    (hllm2 : net.llm2 = Attempt.resp 200 text :: r2) :
    ¬ strip t = "" ∧ (wsPipeline net tp0 tc0 h0 audio).ttsCalls = [text] := by
  constructor
  · simp only [orchestrateVoice] at ht
    split at ht
    · simp at ht
    · split at ht
      · simp at ht
      · split at ht
        · simp at ht
        · next hfail =>
          simp only [llm2Failed, Bool.or_eq_true, beq_iff_eq,
            Bool.not_eq_true'] at hfail
          push_neg at hfail
          split at ht <;>
            · simp only [List.mem_singleton] at ht
              subst ht
              exact hfail.1.2
  · unfold wsPipeline
    rw [hstt, hllm2]
    simp only [takeAttempt]
    rcases htts : net.tts with _ | ⟨a3, r3⟩
    · simp [takeAttempt]
    · cases a3 with
      | exn => simp [takeAttempt]
      | resp st3 chunks =>
        by_cases h3 : st3 = 200 <;> simp [takeAttempt, h3]

/-- Witness for C6 (amended): a fully successful voice turn whose reply is
`"resp"`, and a WebSocket pipeline whose LLM2 reply is `"hi there"`. -/
theorem empty_reply_never_synthesized_wit :
    ¬ strip "resp" = "" ∧
    (wsPipeline ⟨[Attempt.resp 200 "yo"], [Attempt.resp 200 "hi there"],
        [Attempt.resp 200 []], fun _ => false⟩ true (some false) []
        [2]).ttsCalls = ["hi there"] :=
  empty_reply_never_synthesized none ⟨0, 0⟩ ⟨0, 0⟩ ⟨0, 0⟩ ⟨0, 0⟩ 0
    [Attempt.resp 200 "hello"] [Attempt.resp 200 ("ctx", [])]
    [Attempt.resp 200 "resp"] [Attempt.resp 200 (some "aud")] "resp"
    (by decide)
    ⟨[Attempt.resp 200 "yo"], [Attempt.resp 200 "hi there"],
      [Attempt.resp 200 []], fun _ => false⟩ true (some false) [] [2]
    "yo" "hi there" [] [] rfl rfl

/-- C7 (corrected), counterexample to the claim as stated: in voice mode
the context stage (LLM1) is invoked on every turn of a session — after a
fully successful first turn, the second turn consumes its LLM1 attempt
again instead of reusing a cached persona context. -/
theorem context_recomputed_voice_cex :
    let turn1 := orchestrateVoice none ⟨0, 0⟩ ⟨0, 0⟩ ⟨0, 0⟩ ⟨0, 0⟩ 0
      [Attempt.resp 200 "hello"] [Attempt.resp 200 ("ctx", [])]
      [Attempt.resp 200 "resp"] [Attempt.resp 200 (some "aud")]
    let turn2 := orchestrateVoice none turn1.bStt turn1.b1 turn1.b2
      turn1.bTts 0 [Attempt.resp 200 "hello again"]
      [Attempt.resp 200 ("ctx", [])] [Attempt.resp 200 "resp2"]
      [Attempt.resp 200 (some "aud2")]
    turn1.result.error = none ∧ turn1.llm1Left = [] ∧ turn2.llm1Left = [] := by
  decide

/-- C7 (amended): in chat mode the persona context is computed at most
once per cache key: a cache hit skips the LLM1 stage entirely (its attempt
budget is untouched and the cache is unchanged), and a cache miss followed
by a successful, non-fallback LLM1 result stores the context under the
key, so every later chat turn of the session hits the cache.  Voice mode
recomputes the context on every turn. -/
theorem context_cached_chat
    (ui : String) (cd : Rules) (key : String)
    (cache : List (String × (String × Rules)))
    (b1 b2 : BreakerState) (now : Nat)
    (llm1A : List (Attempt (String × Rules))) (llm2A : List (Attempt String))
    (c : String) (rules : Rules) (l1rest : List (Attempt (String × Rules)))
    (hui : ¬ ui = "") (hcd : ¬ cd = []) (hb1 : b1.openUntil ≤ now) :
    (List.lookup key cache = some (c, rules) →
      (orchestrateChat ui cd key cache b1 b2 now llm1A llm2A).llm1Left = llm1A ∧
      (orchestrateChat ui cd key cache b1 b2 now llm1A llm2A).cache = cache) ∧
    (List.lookup key cache = none →
      llm1A = Attempt.resp 200 (c, rules) :: l1rest →
      ¬ c = FALLBACK_CONTEXT →
      List.lookup key
          (orchestrateChat ui cd key cache b1 b2 now llm1A llm2A).cache
        = some (c, rules)) := by
  constructor
  · intro hhit
    unfold orchestrateChat
    rw [if_neg (by simp [hui, hcd]), hhit]
    exact ⟨(chatRespond_cache cache c b1 b2 now llm1A llm2A).2,
      (chatRespond_cache cache c b1 b2 now llm1A llm2A).1⟩
  · intro hmiss h1A hc
    unfold orchestrateChat
    rw [if_neg (by simp [hui, hcd]), hmiss, h1A]
    have hsp : safePost b1 now (Attempt.resp 200 (c, rules) :: l1rest) =
        ({ b1 with failures := 0 }, CallResult.success (c, rules), l1rest) := by
      unfold safePost attemptLoop
      rw [if_neg (Nat.not_lt.mpr hb1)]
      rfl
    rw [hsp]
    have hnf : llm1Failed (CallResult.success (c, rules)) c = false := by
      simp [llm1Failed, CallResult.isOk, hc]
    simp only [contextOf, hnf, Bool.false_eq_true, if_false, reduceIte]
    rw [(chatRespond_cache ((key, (c, rules)) :: cache) c
      { b1 with failures := 0 } b2 now l1rest llm2A).1]
    simp [List.lookup]

/-- Witness for C7 (amended) on a concrete session: key `"s1"`, empty
cache, an LLM1 success with context `"ctx2"` — the miss branch caches it.
The hit branch's antecedent is false for the empty cache. -/
theorem context_cached_chat_wit :
    (List.lookup "s1" ([] : List (String × (String × Rules)))
        = some ("ctx2", []) →
      (orchestrateChat "hi" [("name", "Nova")] "s1" [] ⟨0, 0⟩ ⟨0, 0⟩ 0
        [Attempt.resp 200 ("ctx2", [])] [Attempt.resp 200 "ok"]).llm1Left
        = [Attempt.resp 200 ("ctx2", [])] ∧
      (orchestrateChat "hi" [("name", "Nova")] "s1" [] ⟨0, 0⟩ ⟨0, 0⟩ 0
        [Attempt.resp 200 ("ctx2", [])] [Attempt.resp 200 "ok"]).cache
        = []) ∧
    (List.lookup "s1" ([] : List (String × (String × Rules))) = none →
      [Attempt.resp 200 ("ctx2", ([] : Rules))]
        = Attempt.resp 200 ("ctx2", []) :: [] →
      ¬ "ctx2" = FALLBACK_CONTEXT →
      List.lookup "s1"
          (orchestrateChat "hi" [("name", "Nova")] "s1" [] ⟨0, 0⟩ ⟨0, 0⟩ 0
            [Attempt.resp 200 ("ctx2", [])] [Attempt.resp 200 "ok"]).cache
        = some ("ctx2", [])) :=
  context_cached_chat "hi" [("name", "Nova")] "s1" []
    ⟨0, 0⟩ ⟨0, 0⟩ 0 [Attempt.resp 200 ("ctx2", [])] [Attempt.resp 200 "ok"]
    "ctx2" [] [] (by decide) (by decide) (by decide)

/-- C9 (confirmed): the VAD classifier rejects a frame of the wrong byte
length with a format error; the session loop catches it, sends one `error`
message, skips the frame (state, buffers, history all unchanged, nothing
consumed from the network environment), and keeps processing the
subsequent frames exactly as if the malformed frame had never arrived. -/
theorem vad_rejects_malformed
    (oracle : List Nat → Bool) (nets : List PipelineNet) (s : WSState)
    (frame : List Nat) (fs : List (List Nat))
    (hlen : ¬ frame.length = frame_bytes) :
    is_speech oracle frame = Except.error () ∧
    handleFrame oracle nets s frame = ⟨s, [WSEvent.errorEvt], [], [], nets⟩ ∧
    (runFrames oracle s nets (frame :: fs)).state
      = (runFrames oracle s nets fs).state ∧
    (runFrames oracle s nets (frame :: fs)).events
      = WSEvent.errorEvt :: (runFrames oracle s nets fs).events ∧
    (runFrames oracle s nets (frame :: fs)).flushes
      = (runFrames oracle s nets fs).flushes ∧
    (runFrames oracle s nets (frame :: fs)).netsLeft
      = (runFrames oracle s nets fs).netsLeft := by
  have hiss : is_speech oracle frame = Except.error () := by
    simp [is_speech, hlen]
  have hhf : handleFrame oracle nets s frame
      = ⟨s, [WSEvent.errorEvt], [], [], nets⟩ := by
    simp [handleFrame, hiss]
  refine ⟨hiss, hhf, ?_, ?_, ?_, ?_⟩ <;> simp [runFrames, hhf]

/-- Witness for C9 on a 3-byte frame against a session in the middle of an
utterance. -/
theorem vad_rejects_malformed_wit :
    is_speech (fun _ => true) [7, 7, 7] = Except.error () ∧
    handleFrame (fun _ => true) [] ⟨true, 2, [1], false, none, []⟩ [7, 7, 7]
      = ⟨⟨true, 2, [1], false, none, []⟩, [WSEvent.errorEvt], [], [], []⟩ ∧
    (runFrames (fun _ => true) ⟨true, 2, [1], false, none, []⟩ []
        ([7, 7, 7] :: [])).state
      = (runFrames (fun _ => true) ⟨true, 2, [1], false, none, []⟩ [] []).state ∧
    (runFrames (fun _ => true) ⟨true, 2, [1], false, none, []⟩ []
        ([7, 7, 7] :: [])).events
      = WSEvent.errorEvt ::
        (runFrames (fun _ => true) ⟨true, 2, [1], false, none, []⟩ [] []).events ∧
    (runFrames (fun _ => true) ⟨true, 2, [1], false, none, []⟩ []
        ([7, 7, 7] :: [])).flushes
      = (runFrames (fun _ => true) ⟨true, 2, [1], false, none, []⟩ [] []).flushes ∧
    (runFrames (fun _ => true) ⟨true, 2, [1], false, none, []⟩ []
        ([7, 7, 7] :: [])).netsLeft
      = (runFrames (fun _ => true) ⟨true, 2, [1], false, none, []⟩ [] []).netsLeft :=
  vad_rejects_malformed (fun _ => true) [] ⟨true, 2, [1], false, none, []⟩
    [7, 7, 7] [] (by decide)

/-- C10 (confirmed): a WebSocket-session frame never touches the shared
`circuit_breakers` registry, and the inline pipeline makes each downstream
call exactly once — one STT attempt is consumed whatever its outcome (for
`net'` the attempt is a transport exception and still no retry happens,
with LLM2 and TTS left untouched), and on the successful path exactly one
LLM2 and one TTS attempt are consumed. -/
theorem ws_turn_no_breaker_no_retry
    (oracle : List Nat → Bool) (nets : List PipelineNet) (g : GlobalState)
    (frame : List Nat) (net net' : PipelineNet) (tp0 : Bool)
    (tc0 : Option Bool) (h0 : List WsTurn) (audio : List Nat)
    (tr t2 : String) (a3 : Attempt (List String))
    (rest r2 : List (Attempt String)) (r3 : List (Attempt (List String)))
    (rest' : List (Attempt String))
    (hstt : net.stt = Attempt.resp 200 tr :: rest)
    (hllm2 : net.llm2 = Attempt.resp 200 t2 :: r2)
    (htts : net.tts = a3 :: r3)
    (hstt' : net'.stt = Attempt.exn :: rest') :
    (handleFrameGlobal oracle nets g frame).1.breakers = g.breakers ∧
    (wsPipeline net tp0 tc0 h0 audio).sttLeft = rest ∧
    (wsPipeline net tp0 tc0 h0 audio).llm2Left = r2 ∧
    (wsPipeline net tp0 tc0 h0 audio).ttsLeft = r3 ∧
    (wsPipeline net' tp0 tc0 h0 audio).sttLeft = rest' ∧
    (wsPipeline net' tp0 tc0 h0 audio).llm2Left = net'.llm2 ∧
    (wsPipeline net' tp0 tc0 h0 audio).ttsLeft = net'.tts := by
  have hmain : (wsPipeline net tp0 tc0 h0 audio).sttLeft = rest ∧
      (wsPipeline net tp0 tc0 h0 audio).llm2Left = r2 ∧
      (wsPipeline net tp0 tc0 h0 audio).ttsLeft = r3 := by
    cases a3 with
    | exn => simp [wsPipeline, hstt, hllm2, htts, takeAttempt]
    | resp st3 chunks =>
      by_cases h3 : st3 = 200 <;>
        simp [wsPipeline, hstt, hllm2, htts, takeAttempt, h3]
  have hexn : (wsPipeline net' tp0 tc0 h0 audio).sttLeft = rest' ∧
      (wsPipeline net' tp0 tc0 h0 audio).llm2Left = net'.llm2 ∧
      (wsPipeline net' tp0 tc0 h0 audio).ttsLeft = net'.tts := by
    simp [wsPipeline, hstt', takeAttempt]
  exact ⟨rfl, hmain.1, hmain.2.1, hmain.2.2, hexn.1, hexn.2.1, hexn.2.2⟩

/-- Witness for C10: a concrete global state with non-trivial breaker
entries, a successful pipeline environment and a failing one. -/
theorem ws_turn_no_breaker_no_retry_wit :
    (handleFrameGlobal (fun _ => true) [] ⟨⟨⟨1, 2⟩, ⟨3, 4⟩, ⟨5, 6⟩, ⟨7, 8⟩⟩,
        ⟨false, 0, [], false, none, []⟩⟩ [9]).1.breakers
      = ⟨⟨1, 2⟩, ⟨3, 4⟩, ⟨5, 6⟩, ⟨7, 8⟩⟩ ∧
    (wsPipeline ⟨[Attempt.resp 200 "hi"], [Attempt.resp 200 "yo"],
        [Attempt.resp 200 ["c"]], fun _ => false⟩ false none [] [1]).sttLeft
      = [] ∧
    (wsPipeline ⟨[Attempt.resp 200 "hi"], [Attempt.resp 200 "yo"],
        [Attempt.resp 200 ["c"]], fun _ => false⟩ false none [] [1]).llm2Left
      = [] ∧
    (wsPipeline ⟨[Attempt.resp 200 "hi"], [Attempt.resp 200 "yo"],
        [Attempt.resp 200 ["c"]], fun _ => false⟩ false none [] [1]).ttsLeft
      = [] ∧
    (wsPipeline ⟨[Attempt.exn], [Attempt.resp 200 "yo"], [],
        fun _ => false⟩ false none [] [1]).sttLeft = [] ∧
    (wsPipeline ⟨[Attempt.exn], [Attempt.resp 200 "yo"], [],
        fun _ => false⟩ false none [] [1]).llm2Left
      = (⟨[Attempt.exn], [Attempt.resp 200 "yo"], [],
          fun _ => false⟩ : PipelineNet).llm2 ∧
    (wsPipeline ⟨[Attempt.exn], [Attempt.resp 200 "yo"], [],
        fun _ => false⟩ false none [] [1]).ttsLeft
      = (⟨[Attempt.exn], [Attempt.resp 200 "yo"], [],
          fun _ => false⟩ : PipelineNet).tts :=
  ws_turn_no_breaker_no_retry (fun _ => true) []
    ⟨⟨⟨1, 2⟩, ⟨3, 4⟩, ⟨5, 6⟩, ⟨7, 8⟩⟩, ⟨false, 0, [], false, none, []⟩⟩ [9]
    ⟨[Attempt.resp 200 "hi"], [Attempt.resp 200 "yo"],
      [Attempt.resp 200 ["c"]], fun _ => false⟩
    ⟨[Attempt.exn], [Attempt.resp 200 "yo"], [], fun _ => false⟩
    false none [] [1] "hi" "yo" (Attempt.resp 200 ["c"]) [] [] [] []
    rfl rfl rfl rfl

/-- No chunk with index at or beyond a point where the cancel event is set
is ever emitted by the TTS relay loop. -/
theorem ttsEmitAux_cancel_bound (cancelled : Nat → Bool)
    (hmono : ∀ i j, i ≤ j → cancelled i = true → cancelled j = true)
    (k : Nat) (hk : cancelled k = true) :
    ∀ (chunks : List String) (i : Nat),
      (ttsEmitAux cancelled i chunks).length ≤ k - i := by
  intro chunks
  induction chunks with
  | nil => intro i; simp [ttsEmitAux]
  | cons c rest ih =>
    intro i
    rw [ttsEmitAux]
    by_cases hci : cancelled i = true
    · simp [hci]
    · have hik : i < k := by
        by_contra hle
        exact hci (hmono k i (by omega) hk)
      simp only [hci, Bool.false_eq_true, if_false, reduceIte,
        List.length_cons]
      have := ih (i + 1)
      omega

/-- C1 (confirmed): while `tts_playing` holds (audio is being streamed
out), the first speech-classified frame (a) emits exactly one `barge_in`
message, (b) clears `tts_playing` and sets the cancel event, (c) leaves
the handler with `speaking = true` before the next frame is processed,
and (d) is itself appended to the (next utterance's) buffer, not flushed
or dropped; moreover once the cancel event is set before chunk `k`, the
TTS relay emits at most the first `k` chunks — nothing after the cancel
signal. -/
theorem barge_in_protocol
    (oracle : List Nat → Bool) (nets : List PipelineNet) (s : WSState)
    (frame : List Nat) (c : Bool) (cancelled : Nat → Bool)
    (chunks : List String) (k : Nat)
    (hplay : s.ttsPlaying = true) (hcancel : s.ttsCancel = some c)
    (hlen : frame.length = frame_bytes) (hsp : oracle frame = true)
    (hmono : ∀ i j, i ≤ j → cancelled i = true → cancelled j = true)
    (hk : cancelled k = true) :
    (handleFrame oracle nets s frame).events.count WSEvent.bargeIn = 1 ∧
    (handleFrame oracle nets s frame).state.ttsPlaying = false ∧
    (handleFrame oracle nets s frame).state.ttsCancel = some true ∧
    (handleFrame oracle nets s frame).state.speaking = true ∧
    (handleFrame oracle nets s frame).state.buffer = s.buffer ++ frame ∧
    (handleFrame oracle nets s frame).flushes = [] ∧
    (ttsEmitAux cancelled 0 chunks).length ≤ k := by
  have hiss : is_speech oracle frame = Except.ok true := by
    simp [is_speech, hlen, hsp]
  have hemit : (ttsEmitAux cancelled 0 chunks).length ≤ k := by
    have := ttsEmitAux_cancel_bound cancelled hmono k hk chunks 0
    omega
  by_cases hsw : s.speaking
  · have heq : handleFrame oracle nets s frame =
        ⟨⟨true, 0, s.buffer ++ frame, false, some true, s.history⟩,
          [WSEvent.bargeIn], [], [], nets⟩ := by
      simp [handleFrame, hiss, bargeState, bargeEvents, hplay, hcancel, hsw]
    rw [heq]
    exact ⟨rfl, rfl, rfl, rfl, rfl, rfl, hemit⟩
  · have heq : handleFrame oracle nets s frame =
        ⟨⟨true, 0, s.buffer ++ frame, false, some true, s.history⟩,
          [WSEvent.bargeIn, WSEvent.vadState true], [], [], nets⟩ := by
      simp [handleFrame, hiss, bargeState, bargeEvents, hplay, hcancel, hsw]
    rw [heq]
    exact ⟨rfl, rfl, rfl, rfl, rfl, rfl, hemit⟩

/-- Witness for C1: assistant speaking with a live unset cancel event, a
960-byte speech frame, and a cancel schedule already set at chunk 0. -/
theorem barge_in_protocol_wit :
    (handleFrame (fun _ => true) [] ⟨false, 0, [], true, some false, []⟩
      (List.replicate 960 1)).events.count WSEvent.bargeIn = 1 ∧
    (handleFrame (fun _ => true) [] ⟨false, 0, [], true, some false, []⟩
      (List.replicate 960 1)).state.ttsPlaying = false ∧
    (handleFrame (fun _ => true) [] ⟨false, 0, [], true, some false, []⟩
      (List.replicate 960 1)).state.ttsCancel = some true ∧
    (handleFrame (fun _ => true) [] ⟨false, 0, [], true, some false, []⟩
      (List.replicate 960 1)).state.speaking = true ∧
    (handleFrame (fun _ => true) [] ⟨false, 0, [], true, some false, []⟩
      (List.replicate 960 1)).state.buffer
      = (⟨false, 0, [], true, some false, []⟩ : WSState).buffer ++
        List.replicate 960 1 ∧
    (handleFrame (fun _ => true) [] ⟨false, 0, [], true, some false, []⟩
      (List.replicate 960 1)).flushes = [] ∧
    (ttsEmitAux (fun _ => true) 0 ["a", "b"]).length ≤ 0 :=
  barge_in_protocol (fun _ => true) [] ⟨false, 0, [], true, some false, []⟩
    (List.replicate 960 1) false (fun _ => true) ["a", "b"] 0
    rfl rfl (by decide) rfl (fun _ _ _ h => h) rfl

/-- C8 (corrected), counterexample to the claim as stated: the WebSocket
session history has no cap — one successful pipeline flush on a session
whose history already holds 10 entries leaves 12 entries. -/
theorem ws_history_unbounded_cex :
    (handleFrame (fun _ => false)
      [⟨[Attempt.resp 200 "t"], [Attempt.resp 200 "r"], [Attempt.resp 200 []],
        fun _ => false⟩]
      ⟨true, 9, [5], false, none, List.replicate 10 ⟨"user", "x"⟩⟩
      (List.replicate 960 0)).state.history.length = 12 ∧
    10 < 12 :=
  ⟨rfl, by decide⟩

/-- C8 (amended): `AIService.add_to_history` keeps the cap: starting from
at most 10 entries, an append yields at most 10 entries, and the result is
the appended list with exactly its oldest entry dropped when the cap was
reached (FIFO eviction, relative order preserved).  The WebSocket session
history, by contrast, is appended without any cap. -/
theorem history_cap_fifo (h : List AiTurn) (m s : String) (now : Nat)
    (hlen : h.length ≤ 10) :
    (add_to_history h m s now).length ≤ 10 ∧
    add_to_history h m s now =
      (h ++ [(⟨s, m, now⟩ : AiTurn)]).drop
        (if h.length = 10 then 1 else 0) := by
  have hlapp : (h ++ [(⟨s, m, now⟩ : AiTurn)]).length = h.length + 1 := by
    simp
  unfold add_to_history manage_conversation_history
  by_cases h10 : h.length = 10
  · have hcond : 10 < (h ++ [(⟨s, m, now⟩ : AiTurn)]).length := by
      rw [hlapp]; omega
    have hdrop : (h ++ [(⟨s, m, now⟩ : AiTurn)]).length - 10 = 1 := by
      rw [hlapp]; omega
    rw [if_pos hcond, hdrop, if_pos h10]
    refine ⟨?_, rfl⟩
    rw [List.length_drop, hlapp]
    omega
  · have hcond : ¬ 10 < (h ++ [(⟨s, m, now⟩ : AiTurn)]).length := by
      rw [hlapp]; omega
    rw [if_neg hcond, if_neg h10]
    refine ⟨?_, by simp⟩
    rw [hlapp]
    omega

/-- Witness for C8 (amended) at a full 10-entry history. -/
theorem history_cap_fifo_wit :
    (add_to_history (List.replicate 10 (⟨"u", "c", 0⟩ : AiTurn))
      "msg" "user" 7).length ≤ 10 ∧
    add_to_history (List.replicate 10 (⟨"u", "c", 0⟩ : AiTurn))
        "msg" "user" 7 =
      (List.replicate 10 (⟨"u", "c", 0⟩ : AiTurn) ++
          [(⟨"user", "msg", 7⟩ : AiTurn)]).drop
        (if (List.replicate 10 (⟨"u", "c", 0⟩ : AiTurn)).length = 10
          then 1 else 0) :=
  history_cap_fifo (List.replicate 10 (⟨"u", "c", 0⟩ : AiTurn)) "msg" "user" 7
    (by decide)

/-- A speech frame is appended to the buffer and resets the silence
counter; `speaking` becomes (or stays) true, with a `vad_state` message on
the transition. -/
theorem handleFrame_speech (oracle : List Nat → Bool)
    (nets : List PipelineNet) (s : WSState) (f : List Nat)
    (hlen : f.length = frame_bytes) (hsp : oracle f = true)
    (htp : s.ttsPlaying = false) :
    handleFrame oracle nets s f =
      ⟨⟨true, 0, s.buffer ++ f, false, s.ttsCancel, s.history⟩,
        if s.speaking then [] else [WSEvent.vadState true],
        [], [], nets⟩ := by
  have hiss : is_speech oracle f = Except.ok true := by
    simp [is_speech, hlen, hsp]
  by_cases hsw : s.speaking <;>
    simp [handleFrame, hiss, bargeState, bargeEvents, htp, hsw]

/-- A silence frame while speaking, below the threshold, only bumps the
counter; in particular it is not appended to the buffer. -/
theorem handleFrame_silence_count (oracle : List Nat → Bool)
    (nets : List PipelineNet) (s : WSState) (f : List Nat)
    (hlen : f.length = frame_bytes) (hsp : oracle f = false)
    (hsw : s.speaking = true)
    (hc : s.silenceCounter + 1 < MAX_SILENCE_CHUNKS) :
    handleFrame oracle nets s f =
      ⟨{ s with silenceCounter := s.silenceCounter + 1 }, [], [], [], nets⟩ := by
  have hiss : is_speech oracle f = Except.ok false := by
    simp [is_speech, hlen, hsp]
  simp [handleFrame, hiss, bargeState, bargeEvents, hsw, Nat.not_le.mpr hc]

/-- The silence frame that reaches the threshold flushes the (non-empty)
buffer into the inline pipeline: `vad_state false` is sent, the segmenter
returns to idle with an empty buffer and a zero counter, and the buffer
is handed to STT. -/
theorem handleFrame_silence_flush (oracle : List Nat → Bool)
    (nets : List PipelineNet) (s : WSState) (f : List Nat)
    (hlen : f.length = frame_bytes) (hsp : oracle f = false)
    (hsw : s.speaking = true)
    (hc : MAX_SILENCE_CHUNKS ≤ s.silenceCounter + 1)
    (hbuf : ¬ s.buffer = []) :
    handleFrame oracle nets s f =
      ⟨⟨false, 0, [],
          (wsPipeline (takeNet nets).1 s.ttsPlaying s.ttsCancel s.history
            s.buffer).ttsPlaying,
          (wsPipeline (takeNet nets).1 s.ttsPlaying s.ttsCancel s.history
            s.buffer).ttsCancel,
          (wsPipeline (takeNet nets).1 s.ttsPlaying s.ttsCancel s.history
            s.buffer).history⟩,
        WSEvent.vadState false ::
          (wsPipeline (takeNet nets).1 s.ttsPlaying s.ttsCancel s.history
            s.buffer).events,
        [s.buffer],
        (wsPipeline (takeNet nets).1 s.ttsPlaying s.ttsCancel s.history
          s.buffer).ttsCalls,
        (takeNet nets).2⟩ := by
  have hiss : is_speech oracle f = Except.ok false := by
    simp [is_speech, hlen, hsp]
  simp [handleFrame, hiss, bargeState, bargeEvents, hsw, hc,
    List.isEmpty_iff, hbuf]

/-- A silence frame while idle is a no-op. -/
theorem handleFrame_silence_idle (oracle : List Nat → Bool)
    (nets : List PipelineNet) (s : WSState) (f : List Nat)
    (hlen : f.length = frame_bytes) (hsp : oracle f = false)
    (hsw : s.speaking = false) :
    handleFrame oracle nets s f = ⟨s, [], [], [], nets⟩ := by
  have hiss : is_speech oracle f = Except.ok false := by
    simp [is_speech, hlen, hsp]
  simp [handleFrame, hiss, bargeState, bargeEvents, hsw]

/-- The TTS relay loop emits only `tts_chunk` messages. -/
theorem ttsEmitAux_no_vadState (cancelled : Nat → Bool) (b : Bool) :
    ∀ (chunks : List String) (i : Nat),
      WSEvent.vadState b ∉ ttsEmitAux cancelled i chunks := by
  intro chunks
  induction chunks with
  | nil => intro i; simp [ttsEmitAux]
  | cons c rest ih =>
    intro i
    rw [ttsEmitAux]
    by_cases hci : cancelled i = true
    · simp [hci]
    · simp only [hci, Bool.false_eq_true, if_false, reduceIte,
        List.mem_cons]
      rintro (h | h)
      · exact WSEvent.noConfusion h
      · exact ih (i + 1) h

/-- The inline pipeline never sends a `vad_state` message. -/
theorem wsPipeline_no_vadState (net : PipelineNet) (tp0 : Bool)
    (tc0 : Option Bool) (h0 : List WsTurn) (audio : List Nat) (b : Bool) :
    WSEvent.vadState b ∉ (wsPipeline net tp0 tc0 h0 audio).events := by
  unfold wsPipeline
  cases h1 : (takeAttempt net.stt).1 with
  | exn => simp [h1]
  | resp st tr =>
    by_cases hst : st = 200
    · subst hst
      cases h2 : (takeAttempt net.llm2).1 with
      | exn => simp [h1, h2]
      | resp st2 text =>
        by_cases hst2 : st2 = 200
        · subst hst2
          cases h3 : (takeAttempt net.tts).1 with
          | exn => simp [h1, h2, h3]
          | resp st3 chunks =>
            by_cases hst3 : st3 = 200
            · subst hst3
              simp [h1, h2, h3, ttsEmitAux_no_vadState]
            · simp [h1, h2, h3, hst3]
        · simp [h1, h2, hst2]
    · simp [h1, hst]

/-- A run of well-formed speech frames from a non-assistant-speaking state
accumulates all their bytes into the buffer, ends with `speaking = true`
and a zero silence counter, flushes nothing, and never emits
`vad_state false`. -/
theorem runFrames_speech (oracle : List Nat → Bool) (nets : List PipelineNet) :
    ∀ (fs : List (List Nat)) (s : WSState),
      (∀ f ∈ fs, f.length = frame_bytes ∧ oracle f = true) →
      s.ttsPlaying = false → ¬ fs = [] →
      ∃ ev, runFrames oracle s nets fs =
        ⟨⟨true, 0, s.buffer ++ fs.flatten, false, s.ttsCancel, s.history⟩,
          ev, [], [], nets⟩ ∧
        ev.count (WSEvent.vadState false) = 0 := by
  intro fs
  induction fs with
  | nil => intro s _ _ hne; exact absurd rfl hne
  | cons f fs ih =>
    intro s hall htp _
    obtain ⟨hlen, hsp⟩ := hall f (by simp)
    have hstep := handleFrame_speech oracle nets s f hlen hsp htp
    by_cases hfs : fs = []
    · subst hfs
      refine ⟨if s.speaking then [] else [WSEvent.vadState true], ?_, ?_⟩
      · simp [runFrames, hstep]
      · by_cases hsw : s.speaking <;>
          simp [hsw, List.count_cons, List.count_nil]
    · obtain ⟨ev, heq, hcount⟩ :=
        ih ⟨true, 0, s.buffer ++ f, false, s.ttsCancel, s.history⟩
          (fun g hg => hall g (by simp [hg])) rfl hfs
      refine ⟨(if s.speaking then [] else [WSEvent.vadState true]) ++ ev,
        ?_, ?_⟩
      · simp [runFrames, hstep, heq, List.append_assoc]
      · rw [List.count_append, hcount]
        by_cases hsw : s.speaking <;>
          simp [hsw, List.count_cons, List.count_nil]

/-- Silence frames while idle are all no-ops. -/
theorem runFrames_silence_idle (oracle : List Nat → Bool)
    (nets : List PipelineNet) :
    ∀ (fs : List (List Nat)) (s : WSState),
      (∀ f ∈ fs, f.length = frame_bytes ∧ oracle f = false) →
      s.speaking = false →
      runFrames oracle s nets fs = ⟨s, [], [], [], nets⟩ := by
  intro fs
  induction fs with
  | nil => intro s _ _; simp [runFrames]
  | cons f fs ih =>
    intro s hall hsw
    obtain ⟨hlen, hsp⟩ := hall f (by simp)
    have hstep := handleFrame_silence_idle oracle nets s f hlen hsp hsw
    have hih := ih s (fun g hg => hall g (by simp [hg])) hsw
    simp [runFrames, hstep, hih]

/-- A long-enough run of silence frames from a speaking state with a
non-empty buffer flushes exactly once: the segmenter returns to idle with
an empty buffer and a zero counter, exactly the pre-run buffer is handed
to STT, and exactly one `vad_state false` message is emitted. -/
theorem runFrames_silence_to_flush (oracle : List Nat → Bool) :
    ∀ (fs : List (List Nat)) (s : WSState) (nets : List PipelineNet),
      (∀ f ∈ fs, f.length = frame_bytes ∧ oracle f = false) →
      s.speaking = true → ¬ s.buffer = [] →
      s.silenceCounter < MAX_SILENCE_CHUNKS →
      MAX_SILENCE_CHUNKS ≤ s.silenceCounter + fs.length →
      (runFrames oracle s nets fs).state.speaking = false ∧
      (runFrames oracle s nets fs).state.buffer = [] ∧
      (runFrames oracle s nets fs).state.silenceCounter = 0 ∧
      (runFrames oracle s nets fs).flushes = [s.buffer] ∧
      (runFrames oracle s nets fs).events.count (WSEvent.vadState false)
        = 1 := by
  intro fs
  induction fs with
  | nil =>
    intro s nets _ _ _ hlt hge
    simp only [List.length_nil, Nat.add_zero] at hge
    omega
  | cons f fs ih =>
    intro s nets hall hsw hbuf hlt hge
    obtain ⟨hlen, hsp⟩ := hall f (by simp)
    by_cases hc : MAX_SILENCE_CHUNKS ≤ s.silenceCounter + 1
    · have hstep :=
        handleFrame_silence_flush oracle nets s f hlen hsp hsw hc hbuf
      have hzero : (wsPipeline (takeNet nets).1 s.ttsPlaying s.ttsCancel
          s.history s.buffer).events.count (WSEvent.vadState false) = 0 :=
        List.count_eq_zero.mpr (wsPipeline_no_vadState _ _ _ _ _ false)
      have hidle := runFrames_silence_idle oracle (takeNet nets).2 fs
        ⟨false, 0, [],
          (wsPipeline (takeNet nets).1 s.ttsPlaying s.ttsCancel s.history
            s.buffer).ttsPlaying,
          (wsPipeline (takeNet nets).1 s.ttsPlaying s.ttsCancel s.history
            s.buffer).ttsCancel,
          (wsPipeline (takeNet nets).1 s.ttsPlaying s.ttsCancel s.history
            s.buffer).history⟩
        (fun g hg => hall g (by simp [hg])) rfl
      refine ⟨?_, ?_, ?_, ?_, ?_⟩ <;>
        simp [runFrames, hstep, hidle, List.count_cons, hzero]
    · have hlt1 : s.silenceCounter + 1 < MAX_SILENCE_CHUNKS :=
        Nat.not_le.mp hc
      have hstep :=
        handleFrame_silence_count oracle nets s f hlen hsp hsw hlt1
      have hih := ih { s with silenceCounter := s.silenceCounter + 1 } nets
        (fun g hg => hall g (by simp [hg])) (by simp [hsw])
        (by simpa using hbuf) (by simpa using hlt1)
        (by
          simp only [List.length_cons] at hge
          show MAX_SILENCE_CHUNKS ≤ s.silenceCounter + 1 + fs.length
          omega)
      refine ⟨?_, ?_, ?_, ?_, ?_⟩ <;>
        simp [runFrames, hstep, hih.1, hih.2.1, hih.2.2.1, hih.2.2.2.1,
          hih.2.2.2.2]

/-- Frame processing decomposes over list append: the second phase starts
from the first phase's final state and remaining network environments, and
the event, flush and TTS-call traces concatenate. -/
theorem runFrames_append (oracle : List Nat → Bool) :
    ∀ (xs ys : List (List Nat)) (s : WSState) (nets : List PipelineNet),
      runFrames oracle s nets (xs ++ ys) =
        ⟨(runFrames oracle (runFrames oracle s nets xs).state
            (runFrames oracle s nets xs).netsLeft ys).state,
          (runFrames oracle s nets xs).events ++
            (runFrames oracle (runFrames oracle s nets xs).state
              (runFrames oracle s nets xs).netsLeft ys).events,
          (runFrames oracle s nets xs).flushes ++
            (runFrames oracle (runFrames oracle s nets xs).state
              (runFrames oracle s nets xs).netsLeft ys).flushes,
          (runFrames oracle s nets xs).ttsCalls ++
            (runFrames oracle (runFrames oracle s nets xs).state
              (runFrames oracle s nets xs).netsLeft ys).ttsCalls,
          (runFrames oracle (runFrames oracle s nets xs).state
            (runFrames oracle s nets xs).netsLeft ys).netsLeft⟩ := by
  intro xs
  induction xs with
  | nil => intro ys s nets; simp [runFrames]
  | cons x xs ih =>
    intro ys s nets
    simp only [List.cons_append, runFrames, List.append_eq]
    rw [ih]
    simp [runFrames, List.append_assoc]

/-- C5 (corrected), counterexample to the claim as stated: in the
`Speaking` state a silence-classified frame increments the silence-run
counter but is NOT appended to the utterance buffer — trailing silence is
discarded, not retained. -/
theorem silence_not_appended_cex :
    (handleFrame (fun _ => false) [] ⟨true, 0, [1, 2], false, none, []⟩
      (List.replicate 960 0)).state.silenceCounter = 1 ∧
    (handleFrame (fun _ => false) [] ⟨true, 0, [1, 2], false, none, []⟩
      (List.replicate 960 0)).state.buffer = [1, 2] ∧
    ¬ (handleFrame (fun _ => false) [] ⟨true, 0, [1, 2], false, none, []⟩
      (List.replicate 960 0)).state.buffer
      = [1, 2] ++ List.replicate 960 0 :=
  ⟨rfl, rfl, by decide⟩

/-- C5 (amended): while `Speaking`, a silence frame increments the
silence-run counter but is not appended (trailing silence is discarded);
when the counter reaches `max_silence_chunks` the segmenter goes idle,
emits exactly one `vad_state false`, hands exactly one utterance — the
accumulated speech bytes only — to STT, and clears buffer and counter.
Hence N ≥ 1 speech frames followed by at least `max_silence_chunks`
silence frames yield exactly one utterance containing exactly the N
speech frames' bytes. -/
theorem one_utterance_per_silence_run (oracle : List Nat → Bool)
    (nets : List PipelineNet) (hist : List WsTurn) (tc : Option Bool)
    (speech silence : List (List Nat))
    (hne : ¬ speech = [])
    (hsOK : ∀ f ∈ speech, f.length = frame_bytes ∧ oracle f = true)
    (hzOK : ∀ f ∈ silence, f.length = frame_bytes ∧ oracle f = false)
    (hM : MAX_SILENCE_CHUNKS ≤ silence.length) :
    (runFrames oracle ⟨false, 0, [], false, tc, hist⟩ nets
        (speech ++ silence)).flushes = [speech.flatten] ∧
    (runFrames oracle ⟨false, 0, [], false, tc, hist⟩ nets
        (speech ++ silence)).state.speaking = false ∧
    (runFrames oracle ⟨false, 0, [], false, tc, hist⟩ nets
        (speech ++ silence)).state.buffer = [] ∧
    (runFrames oracle ⟨false, 0, [], false, tc, hist⟩ nets
        (speech ++ silence)).state.silenceCounter = 0 ∧
    (runFrames oracle ⟨false, 0, [], false, tc, hist⟩ nets
        (speech ++ silence)).events.count (WSEvent.vadState false) = 1 := by
  obtain ⟨ev, heq1, hcount1⟩ :=
    runFrames_speech oracle nets speech ⟨false, 0, [], false, tc, hist⟩
      hsOK rfl hne
  have heq1' : runFrames oracle ⟨false, 0, [], false, tc, hist⟩ nets speech
      = ⟨⟨true, 0, speech.flatten, false, tc, hist⟩, ev, [], [], nets⟩ := by
    simpa using heq1
  have hbufne : ¬ speech.flatten = [] := by
    obtain ⟨f0, t0, hspl⟩ := List.exists_cons_of_ne_nil hne
    have hf0 : f0.length = frame_bytes := (hsOK f0 (by rw [hspl]; simp)).1
    rw [hspl]
    simp only [List.flatten_cons, List.append_eq_nil]
    rintro ⟨h1, _⟩
    rw [h1] at hf0
    simp [frame_bytes] at hf0
  obtain ⟨hsp1, hsp2, hsp3, hsp4, hsp5⟩ :=
    runFrames_silence_to_flush oracle silence
      ⟨true, 0, speech.flatten, false, tc, hist⟩ nets hzOK rfl hbufne
      (by simp [MAX_SILENCE_CHUNKS]) (by simpa using hM)
  have happ := runFrames_append oracle speech silence
    ⟨false, 0, [], false, tc, hist⟩ nets
  rw [happ, heq1']
  refine ⟨?_, ?_, ?_, ?_, ?_⟩ <;>
    simp [hsp1, hsp2, hsp3, hsp4, hsp5, hcount1, List.count_append]

/-- Witness for C5 (amended): one 960-byte speech frame of 1-bytes, then
ten silence frames of 0-bytes, classified by first byte. -/
theorem one_utterance_per_silence_run_wit :
    (runFrames (fun f => f.head? == some 1)
        ⟨false, 0, [], false, none, []⟩ []
        ([List.replicate 960 1] ++ List.replicate 10 (List.replicate 960 0))
      ).flushes = [List.flatten [List.replicate 960 1]] ∧
    (runFrames (fun f => f.head? == some 1)
        ⟨false, 0, [], false, none, []⟩ []
        ([List.replicate 960 1] ++ List.replicate 10 (List.replicate 960 0))
      ).state.speaking = false ∧
    (runFrames (fun f => f.head? == some 1)
        ⟨false, 0, [], false, none, []⟩ []
        ([List.replicate 960 1] ++ List.replicate 10 (List.replicate 960 0))
      ).state.buffer = [] ∧
    (runFrames (fun f => f.head? == some 1)
        ⟨false, 0, [], false, none, []⟩ []
        ([List.replicate 960 1] ++ List.replicate 10 (List.replicate 960 0))
      ).state.silenceCounter = 0 ∧
    (runFrames (fun f => f.head? == some 1)
        ⟨false, 0, [], false, none, []⟩ []
        ([List.replicate 960 1] ++ List.replicate 10 (List.replicate 960 0))
      ).events.count (WSEvent.vadState false) = 1 :=
  one_utterance_per_silence_run (fun f => f.head? == some 1) [] [] none
    [List.replicate 960 1] (List.replicate 10 (List.replicate 960 0))
    (by decide) (by decide) (by decide) (by decide)

end AILayer2
